import Mathlib

/-!
Verification of the FaceGUI capability-probing and result-normalization layer
(`beta/core/core_face.py`) against its natural-language specification.

The Python module is shallowly embedded: the configuration dictionary, the
process environment and the remote face service are explicit parameters, and
functions that can raise return `Except PyErr`.  The remote service (an Azure
Face endpoint reached through the SDK client objects) is modelled as an
oracle value `ServiceOracle`, since its behaviour is outside this repository.
-/

/-- Python truthiness of an optional string: `None` and the empty string are
falsy, every other string is truthy. -/
def truthyS : Option String → Bool
  | Option.none => false
  | Option.some s => !(s == "")

/-- Python `a or b` on optional strings: yields `a` when `a` is truthy,
otherwise `b` (even when `b` is falsy). -/
def pyOr (a b : Option String) : Option String :=
  if truthyS a then a else b

/-- The process environment variables read by `core_face.create_clients`
(`os.environ.get("FACE_ENDPOINT")`, `os.environ.get("FACE_KEY")`). -/
structure Env where
  FACE_ENDPOINT : Option String
  FACE_KEY : Option String
deriving DecidableEq

/-- The configuration dictionary `cfg` consumed by `core_face`: the keys the
module reads with `cfg.get`.  An absent key is `Option.none`;
`use_managed_identity` is read only for truthiness, modelled as `Bool`. -/
structure Config where
  endpoint : Option String
  auth_method : Option String
  use_managed_identity : Bool
  key : Option String
deriving DecidableEq

/-- Credential handed to the SDK clients: `DefaultAzureCredential()` on the
managed-identity path, `AzureKeyCredential(key)` on the subscription-key path. -/
inductive Credential where
  | managed
  | apiKey (key : String)
deriving DecidableEq

/-- Model of `azure.ai.vision.face.FaceClient` as constructed by the module:
it is determined by the endpoint and credential passed to its constructor. -/
structure FaceClient where
  endpoint : String
  credential : Credential
deriving DecidableEq

/-- Model of `azure.ai.vision.face.FaceAdministrationClient`. -/
structure FaceAdministrationClient where
  endpoint : String
  credential : Credential
deriving DecidableEq

/-- Python exceptions raised or propagated by the module.  `invalidArgument`
does not occur in the code; it is included so that the specification's
`InvalidArgument` outcome is statable. -/
inductive PyErr where
  | valueError (msg : String)
  | httpResponseError (msg : String)
  | otherError (msg : String)
  | invalidArgument
deriving DecidableEq

/-- Embedding of `core_face.create_clients` (core_face.py lines 39-59):
resolves the endpoint from `cfg.endpoint` with fallback to the
`FACE_ENDPOINT` environment variable, selects the managed-identity path when
`auth_method == "Azure AD"` or `use_managed_identity` is truthy, otherwise
resolves the key from `cfg.key` with fallback to `FACE_KEY`, raising
`ValueError` when endpoint or key is missing. -/
def create_clients (env : Env) (cfg : Config) :
    Except PyErr (FaceClient × FaceAdministrationClient) :=
  let endpoint := pyOr cfg.endpoint env.FACE_ENDPOINT
  if truthyS endpoint = false then
    Except.error (PyErr.valueError "Endpoint not provided in cfg.endpoint or FACE_ENDPOINT env")
  else
    let ep := endpoint.getD ""
    let auth_method := cfg.auth_method.getD "Subscription Key"
    if auth_method == "Azure AD" || cfg.use_managed_identity then
      Except.ok (⟨ep, Credential.managed⟩, ⟨ep, Credential.managed⟩)
    else
      let key := pyOr cfg.key env.FACE_KEY
      if truthyS key = false then
        Except.error (PyErr.valueError "Subscription key missing (cfg.key or FACE_KEY env)")
      else
        Except.ok (⟨ep, Credential.apiKey (key.getD "")⟩, ⟨ep, Credential.apiKey (key.getD "")⟩)

/-- The SDK attribute enum `FaceAttributeTypeRecognition04` (the fifteen
members referenced by `ATTRIBUTE_MAP`). -/
inductive FaceAttributeTypeRecognition04 where
  | AGE | GENDER | EMOTION | GLASSES | HAIR | MAKEUP | FACIAL_HAIR | HEAD_POSE
  | OCCLUSION | ACCESSORIES | BLUR | EXPOSURE | NOISE | QUALITY_FOR_RECOGNITION | SMILE
deriving DecidableEq

/-- Embedding of `core_face.ATTRIBUTE_MAP` (core_face.py lines 17-33), as an
association list in source order. -/
def ATTRIBUTE_MAP : List (String × FaceAttributeTypeRecognition04) :=
  [("age", FaceAttributeTypeRecognition04.AGE),
   ("gender", FaceAttributeTypeRecognition04.GENDER),
   ("emotion", FaceAttributeTypeRecognition04.EMOTION),
   ("glasses", FaceAttributeTypeRecognition04.GLASSES),
   ("hair", FaceAttributeTypeRecognition04.HAIR),
   ("makeup", FaceAttributeTypeRecognition04.MAKEUP),
   ("facialHair", FaceAttributeTypeRecognition04.FACIAL_HAIR),
   ("headPose", FaceAttributeTypeRecognition04.HEAD_POSE),
   ("occlusion", FaceAttributeTypeRecognition04.OCCLUSION),
   ("accessories", FaceAttributeTypeRecognition04.ACCESSORIES),
   ("blur", FaceAttributeTypeRecognition04.BLUR),
   ("exposure", FaceAttributeTypeRecognition04.EXPOSURE),
   ("noise", FaceAttributeTypeRecognition04.NOISE),
   ("qualityForRecognition", FaceAttributeTypeRecognition04.QUALITY_FOR_RECOGNITION),
   ("smile", FaceAttributeTypeRecognition04.SMILE)]

/-- Python dictionary lookup `ATTRIBUTE_MAP[a]` guarded by `a in ATTRIBUTE_MAP`. -/
def lookupAttr (a : String) : Option FaceAttributeTypeRecognition04 :=
  ATTRIBUTE_MAP.lookup a

/-- Embedding of the attribute translation in `detect_faces_sdk`
(core_face.py lines 79-81): `attrs` stays `None` unless
`return_face_attributes` is truthy (a non-empty list), in which case it is
the comprehension over entries present in `ATTRIBUTE_MAP`. -/
def computeAttrs (return_face_attributes : Option (List String)) :
    Option (List FaceAttributeTypeRecognition04) :=
  match return_face_attributes with
  | Option.none => Option.none
  | Option.some l =>
    if l.isEmpty then Option.none
    else Option.some (l.filterMap lookupAttr)

/-! ## Python values and the result normalizer -/

mutual
/-- Plain Python data as produced by `json.loads` / `as_dict`: strings,
integers, booleans, `None`, lists and string-keyed dictionaries. -/
inductive PyVal where
  | str (s : String)
  | int (n : Int)
  | bool (b : Bool)
  | null
  | list (xs : PyList)
  | dict (es : PyFields)
/-- A Python list of `PyVal`s. -/
inductive PyList where
  | nil
  | cons (hd : PyVal) (tl : PyList)
/-- The entries of a Python dictionary, in insertion order. -/
inductive PyFields where
  | nil
  | cons (key : String) (val : PyVal) (tl : PyFields)
end

/-- The double-quote character. -/
def chQuote : Char := Char.ofNat 34
/-- The single-quote character. -/
def chApos : Char := Char.ofNat 39
/-- The backslash character. -/
def chBackslash : Char := Char.ofNat 92
/-- The opening-brace character. -/
def chLBrace : Char := Char.ofNat 123
/-- The closing-brace character. -/
def chRBrace : Char := Char.ofNat 125

/-- JSON whitespace. -/
def isJsonWs (c : Char) : Bool :=
  c == ' ' || c == '\t' || c == '\n' || c == '\r'

/-- Drop leading JSON whitespace. -/
def skipWs : List Char → List Char
  | [] => []
  | c :: cs => if isJsonWs c then skipWs cs else c :: cs

/-- JSON string escapes handled by the model (`\uXXXX` is not modelled). -/
def jsonEscape (e : Char) : Option Char :=
  if e = chQuote then Option.some chQuote
  else if e = chBackslash then Option.some chBackslash
  else if e = '/' then Option.some '/'
  else if e = 'n' then Option.some '\n'
  else if e = 't' then Option.some '\t'
  else if e = 'r' then Option.some '\r'
  else if e = 'b' then Option.some (Char.ofNat 8)
  else if e = 'f' then Option.some (Char.ofNat 12)
  else Option.none

/-- Parse the body of a JSON string literal (the opening quote has been
consumed); returns the string and the remaining input. -/
def parseJsonString : List Char → Option (String × List Char)
  | [] => Option.none
  | c :: rest =>
    if c = chQuote then Option.some ("", rest)
    else if c = chBackslash then
      match rest with
      | [] => Option.none
      | e :: rest2 =>
        match jsonEscape e with
        | Option.none => Option.none
        | Option.some c2 =>
          match parseJsonString rest2 with
          | Option.none => Option.none
          | Option.some (s, r) => Option.some (String.mk (c2 :: s.data), r)
    else
      match parseJsonString rest with
      | Option.none => Option.none
      | Option.some (s, r) => Option.some (String.mk (c :: s.data), r)

/-- Longest digit prefix of the input, and the rest. -/
def takeDigits : List Char → List Char × List Char
  | [] => ([], [])
  | c :: cs =>
    if c.isDigit then
      match takeDigits cs with
      | (ds, r) => (c :: ds, r)
    else ([], c :: cs)

/-- Numeric value of a digit string. -/
def digitsVal (ds : List Char) : Nat :=
  ds.foldl (fun acc c => acc * 10 + (c.toNat - 48)) 0

/-- True when the input continues with a fractional or exponent part (the
model only covers integer JSON numbers and refuses floats). -/
def floatTail : List Char → Bool
  | [] => false
  | c :: _ => c == '.' || c == 'e' || c == 'E'

mutual
/-- Fuel-indexed model of `json.loads` value parsing, covering null, booleans,
integers, strings, arrays and objects. -/
def parseJsonVal : Nat → List Char → Option (PyVal × List Char)
  | 0, _ => Option.none
  | Nat.succ fuel, input =>
    match skipWs input with
    | 'n' :: 'u' :: 'l' :: 'l' :: r => Option.some (PyVal.null, r)
    | 't' :: 'r' :: 'u' :: 'e' :: r => Option.some (PyVal.bool true, r)
    | 'f' :: 'a' :: 'l' :: 's' :: 'e' :: r => Option.some (PyVal.bool false, r)
    | c :: r =>
      if c = chQuote then
        match parseJsonString r with
        | Option.some (s, r2) => Option.some (PyVal.str s, r2)
        | Option.none => Option.none
      else if c = '[' then parseJsonItems fuel (skipWs r)
      else if c = chLBrace then parseJsonMembers fuel (skipWs r)
      else if c = '-' then
        match takeDigits r with
        | ([], _) => Option.none
        | (ds, r2) =>
          if floatTail r2 then Option.none
          else Option.some (PyVal.int (-(Int.ofNat (digitsVal ds))), r2)
      else if c.isDigit then
        match takeDigits (c :: r) with
        | (ds, r2) =>
          if floatTail r2 then Option.none
          else Option.some (PyVal.int (Int.ofNat (digitsVal ds)), r2)
      else Option.none
    | [] => Option.none

/-- Parse array items after the opening bracket (whitespace already skipped). -/
def parseJsonItems : Nat → List Char → Option (PyVal × List Char)
  | 0, _ => Option.none
  | Nat.succ fuel, input =>
    match input with
    | ']' :: r => Option.some (PyVal.list PyList.nil, r)
    | _ =>
      match parseJsonVal fuel input with
      | Option.none => Option.none
      | Option.some (v, r1) =>
        match skipWs r1 with
        | ']' :: r2 => Option.some (PyVal.list (PyList.cons v PyList.nil), r2)
        | ',' :: r2 =>
          match skipWs r2 with
          | ']' :: _ => Option.none
          | r2s =>
            match parseJsonItems fuel r2s with
            | Option.some (PyVal.list tl, r3) =>
              Option.some (PyVal.list (PyList.cons v tl), r3)
            | _ => Option.none
        | _ => Option.none

/-- Parse object members after the opening brace (whitespace already skipped). -/
def parseJsonMembers : Nat → List Char → Option (PyVal × List Char)
  | 0, _ => Option.none
  | Nat.succ fuel, input =>
    match input with
    | [] => Option.none
    | c :: r =>
      if c = chRBrace then Option.some (PyVal.dict PyFields.nil, r)
      else if c = chQuote then
        match parseJsonString r with
        | Option.none => Option.none
        | Option.some (k, r1) =>
          match skipWs r1 with
          | ':' :: r2 =>
            match parseJsonVal fuel (skipWs r2) with
            | Option.none => Option.none
            | Option.some (v, r3) =>
              match skipWs r3 with
              | [] => Option.none
              | c2 :: r4 =>
                if c2 = chRBrace then
                  Option.some (PyVal.dict (PyFields.cons k v PyFields.nil), r4)
                else if c2 = ',' then
                  match skipWs r4 with
                  | [] => Option.none
                  | c3 :: r5 =>
                    if c3 = chQuote then
                      match parseJsonMembers fuel (c3 :: r5) with
                      | Option.some (PyVal.dict tl, r6) =>
                        Option.some (PyVal.dict (PyFields.cons k v tl), r6)
                      | _ => Option.none
                    else Option.none
                else Option.none
          | _ => Option.none
      else Option.none
end

/-- Model of Python `json.loads`: parse a complete JSON document; any parse
failure (as raised by `json.JSONDecodeError`) is `Option.none`. -/
def json_loads (s : String) : Option PyVal :=
  match parseJsonVal (s.length * 2 + 4) s.data with
  | Option.some (v, r) => if (skipWs r).isEmpty then Option.some v else Option.none
  | Option.none => Option.none

/-- Model of Python `repr` on a string: surrounded by single quotes, or by
double quotes when the string contains a single quote and no double quote.
(Escaping of control characters is not modelled; the development only
evaluates it on strings without them.) -/
def pyReprString (s : String) : String :=
  if s.data.contains chApos && !(s.data.contains chQuote) then
    String.singleton chQuote ++ s ++ String.singleton chQuote
  else
    String.singleton chApos ++ s ++ String.singleton chApos

mutual
/-- Model of Python `repr` on plain values. -/
def pyRepr : PyVal → String
  | PyVal.str s => pyReprString s
  | PyVal.int n => toString n
  | PyVal.bool b => if b then "True" else "False"
  | PyVal.null => "None"
  | PyVal.list xs => "[" ++ pyReprItems xs ++ "]"
  | PyVal.dict es => String.singleton chLBrace ++ pyReprMembers es ++ String.singleton chRBrace
/-- Comma-separated `repr` of list items. -/
def pyReprItems : PyList → String
  | PyList.nil => ""
  | PyList.cons v PyList.nil => pyRepr v
  | PyList.cons v tl => pyRepr v ++ ", " ++ pyReprItems tl
/-- Comma-separated `repr` of dictionary entries. -/
def pyReprMembers : PyFields → String
  | PyFields.nil => ""
  | PyFields.cons k v PyFields.nil => pyReprString k ++ ": " ++ pyRepr v
  | PyFields.cons k v tl => pyReprString k ++ ": " ++ pyRepr v ++ ", " ++ pyReprMembers tl
end

/-- Model of Python `str` on plain values: the identity on strings, `repr`
otherwise. -/
def py_str : PyVal → String
  | PyVal.str s => s
  | v => pyRepr v

/-- An object reaching `_to_simple`, characterized by the two observations the
function makes of it: the result of its `as_dict()` method (`Option.none`
when the attribute is missing or the call raises) and its `str()` text. -/
structure SDKObj where
  as_dict : Option PyVal
  str_repr : String

/-- Embedding of `core_face._to_simple` (core_face.py lines 61-69): try
`obj.as_dict()`, then `json.loads(str(obj))`, then fall back to `str(obj)`
itself.  Both `except Exception` arms are total, so the function always
returns a value. -/
def _to_simple (obj : SDKObj) : PyVal :=
  match obj.as_dict with
  | Option.some v => v
  | Option.none =>
    match json_loads obj.str_repr with
    | Option.some v => v
    | Option.none => PyVal.str obj.str_repr

/-- A plain Python value passed to `_to_simple`: it has no `as_dict` method
(the attribute access raises `AttributeError`, caught by the first handler)
and its `str()` is `py_str`. -/
def plain_obj (v : PyVal) : SDKObj :=
  ⟨Option.none, py_str v⟩

/-- `_to_simple` applied to a plain Python value, as in the specification's
`normalize(x)` for plain-mapping input. -/
def normalizeVal (v : PyVal) : PyVal :=
  _to_simple (plain_obj v)

example : json_loads "\x7b\x7d" = Option.some (PyVal.dict PyFields.nil) := rfl
example : json_loads "42" = Option.some (PyVal.int 42) := rfl
example : json_loads "hello" = Option.none := rfl
example : py_str (PyVal.dict (PyFields.cons "a" (PyVal.int 1) PyFields.nil)) =
    String.singleton chLBrace ++ String.singleton chApos ++ "a" ++ String.singleton chApos ++
      ": 1" ++ String.singleton chRBrace := rfl
example : json_loads (py_str (PyVal.dict (PyFields.cons "a" (PyVal.int 1) PyFields.nil))) =
    Option.none := rfl

/-! ## Face operations facade and the remote-service oracle -/

/-- The SDK detection-model enum (members used by the module). -/
inductive FaceDetectionModel where
  | DETECTION01 | DETECTION02 | DETECTION03
deriving DecidableEq

/-- The SDK recognition-model enum (members used by the module). -/
inductive FaceRecognitionModel where
  | RECOGNITION03 | RECOGNITION04
deriving DecidableEq

/-- The image source of a detect request: `detect_from_url` or
`detect_from_stream` on `io.BytesIO(img_bytes)` (an absent payload gives an
empty stream, as `io.BytesIO(None)` does). -/
inductive DetectSource where
  | fromUrl (url : String)
  | fromStream (data : List Nat)
deriving DecidableEq

/-- A request issued to the remote service by `detect_faces_sdk`, carrying
every parameter the code passes to the SDK call. -/
structure DetectRequest where
  source : DetectSource
  detection_model : FaceDetectionModel
  recognition_model : FaceRecognitionModel
  return_face_id : Bool
  return_face_landmarks : Bool
  return_face_attributes : Option (List FaceAttributeTypeRecognition04)
deriving DecidableEq

/-- The remote face service, modelled as an oracle: the outcome of a detect
request and of the `large_person_group.list()` call.  Errors stand for the
exceptions the SDK raises (`HttpResponseError` and others). -/
structure ServiceOracle where
  detect : DetectRequest → Except PyErr (List SDKObj)
  list_groups : Except PyErr (List SDKObj)

/-- Result of a `detect_faces_sdk` call together with the requests it issued
to the remote service (none when client construction already failed). -/
structure DetectOutcome where
  requests : List DetectRequest
  result : Except PyErr (List PyVal)

/-- Embedding of `core_face.detect_faces_sdk` (core_face.py lines 71-112):
build clients (propagating `ValueError`), translate attribute names, then
issue `detect_from_url` when `url` is truthy and `detect_from_stream`
otherwise, convert each face with `as_dict` falling back to `_to_simple`
(which is exactly `_to_simple`), and propagate service exceptions. -/
def detect_faces_sdk (env : Env) (svc : ServiceOracle) (cfg : Config)
    (img_bytes : Option (List Nat)) (url : Option String)
    (return_landmarks : Bool)
    (detection_model : FaceDetectionModel)
    (recognition_model : FaceRecognitionModel)
    (return_face_attributes : Option (List String)) : DetectOutcome :=
  match create_clients env cfg with
  | Except.error e => ⟨[], Except.error e⟩
  | Except.ok _ =>
    let attrs := computeAttrs return_face_attributes
    let req : DetectRequest :=
      if truthyS url then
        ⟨DetectSource.fromUrl (url.getD ""), detection_model, recognition_model,
          true, return_landmarks, attrs⟩
      else
        ⟨DetectSource.fromStream (img_bytes.getD []), detection_model, recognition_model,
          true, return_landmarks, attrs⟩
    ⟨[req],
      match svc.detect req with
      | Except.error e => Except.error e
      | Except.ok faces => Except.ok (faces.map _to_simple)⟩

/-- Result of `list_large_person_groups_sdk` together with whether the
`list()` call was reached. -/
structure ListGroupsOutcome where
  called : Bool
  result : Except PyErr (List PyVal)

/-- Embedding of `core_face.list_large_person_groups_sdk` (core_face.py lines
143-149): build clients, call `large_person_group.list()` and convert each
group with `as_dict()` (no fallback: a failing `as_dict` propagates). -/
def list_large_person_groups_sdk (env : Env) (svc : ServiceOracle) (cfg : Config) :
    ListGroupsOutcome :=
  match create_clients env cfg with
  | Except.error e => ⟨false, Except.error e⟩
  | Except.ok _ =>
    match svc.list_groups with
    | Except.error e => ⟨true, Except.error e⟩
    | Except.ok gs =>
      ⟨true, gs.mapM (fun g =>
        match g.as_dict with
        | Option.some v => Except.ok v
        | Option.none => Except.error (PyErr.otherError "as_dict raised"))⟩

/-! ## Capability prober -/

/-- The dictionary returned by `probe_endpoint` (core_face.py lines 180-185):
three flat booleans and the ordered error log. -/
structure CapabilityReport where
  detect_basic : Bool
  detect_attributes : Bool
  largePersonGroup : Bool
  errors : List String
deriving DecidableEq

/-- Model of Python `repr` of a caught exception, as interpolated into the
probe's error messages. -/
def reprErr : PyErr → String
  | PyErr.valueError m =>
      "ValueError(" ++ String.singleton chApos ++ m ++ String.singleton chApos ++ ")"
  | PyErr.httpResponseError m =>
      "HttpResponseError(" ++ String.singleton chApos ++ m ++ String.singleton chApos ++ ")"
  | PyErr.otherError m => m
  | PyErr.invalidArgument => "InvalidArgument()"

/-- The detect-basic check of `probe_endpoint` (core_face.py lines 186-202):
first attempt with the test URL if truthy, else with the single zero byte;
on failure retry once with the URL when one is given.  Returns the flag, the
error-log contribution and the detect requests issued. -/
def probe_basic (env : Env) (svc : ServiceOracle) (cfg : Config)
    (test_image_url : Option String) : Bool × List String × List DetectRequest :=
  let first :=
    if truthyS test_image_url then
      detect_faces_sdk env svc cfg Option.none test_image_url false
        FaceDetectionModel.DETECTION03 FaceRecognitionModel.RECOGNITION04 Option.none
    else
      detect_faces_sdk env svc cfg (Option.some [0]) Option.none false
        FaceDetectionModel.DETECTION03 FaceRecognitionModel.RECOGNITION04 Option.none
  match first.result with
  | Except.ok _ => (true, [], first.requests)
  | Except.error e =>
    if truthyS test_image_url then
      let retry :=
        detect_faces_sdk env svc cfg Option.none test_image_url false
          FaceDetectionModel.DETECTION03 FaceRecognitionModel.RECOGNITION04 Option.none
      match retry.result with
      | Except.ok _ => (true, [], first.requests ++ retry.requests)
      | Except.error e2 =>
        (false, ["detect_basic error: " ++ reprErr e2], first.requests ++ retry.requests)
    else
      (false, ["detect_basic error: " ++ reprErr e], first.requests)

/-- The detect-attributes check of `probe_endpoint` (core_face.py lines
204-221): only entered when the basic flag is set; with a truthy test URL it
probes with attributes `["age", "gender"]`, otherwise it does nothing and
still sets the flag. -/
def probe_attrs (env : Env) (svc : ServiceOracle) (cfg : Config)
    (test_image_url : Option String) (basicOk : Bool) :
    Bool × List String × List DetectRequest :=
  if basicOk then
    if truthyS test_image_url then
      let attempt :=
        detect_faces_sdk env svc cfg Option.none test_image_url false
          FaceDetectionModel.DETECTION03 FaceRecognitionModel.RECOGNITION04
          (Option.some ["age", "gender"])
      match attempt.result with
      | Except.ok _ => (true, [], attempt.requests)
      | Except.error e =>
        (false, ["detect_attributes error: " ++ reprErr e], attempt.requests)
    else (true, [], [])
  else (false, [], [])

/-- The large-person-group check of `probe_endpoint` (core_face.py lines
223-232): list the groups, any exception makes the flag false and is logged. -/
def probe_lpg (env : Env) (svc : ServiceOracle) (cfg : Config) : Bool × List String :=
  match (list_large_person_groups_sdk env svc cfg).result with
  | Except.ok _ => (true, [])
  | Except.error e => (false, ["largePersonGroup error: " ++ reprErr e])

/-- A `probe_endpoint` run: the returned report plus the detect requests the
run issued to the remote service (an observation used to state which checks
were actually probed). -/
structure ProbeRun where
  report : CapabilityReport
  requests : List DetectRequest

/-- Embedding of `core_face.probe_endpoint` (core_face.py lines 175-234),
instrumented with the list of detect requests issued. -/
def probe_endpoint_run (env : Env) (svc : ServiceOracle) (cfg : Config)
    (test_image_url : Option String) : ProbeRun :=
  match probe_basic env svc cfg test_image_url with
  | (basicOk, basicErrs, basicReqs) =>
    match probe_attrs env svc cfg test_image_url basicOk with
    | (attrOk, attrErrs, attrReqs) =>
      match probe_lpg env svc cfg with
      | (lpgOk, lpgErrs) =>
        ⟨⟨basicOk, attrOk, lpgOk, basicErrs ++ attrErrs ++ lpgErrs⟩,
          basicReqs ++ attrReqs⟩

/-- Embedding of `core_face.probe_endpoint`: the capability report it returns. -/
def probe_endpoint (env : Env) (svc : ServiceOracle) (cfg : Config)
    (test_image_url : Option String) : CapabilityReport :=
  (probe_endpoint_run env svc cfg test_image_url).report

/-! ## Identification -/

/-- The relation "left candidate has confidence at least the right one's",
used to express descending-confidence order. -/
def confGe (a b : String × ℚ) : Prop :=
  b.2 ≤ a.2

instance : DecidableRel confGe := fun a b => inferInstanceAs (Decidable (b.2 ≤ a.2))

instance : IsTotal (String × ℚ) confGe :=
  ⟨fun a b => le_total b.2 a.2⟩

instance : IsTrans (String × ℚ) confGe :=
  ⟨fun _ _ _ h1 h2 => le_trans h2 h1⟩

/-- Modelled from the spec: the per-face candidate post-processing performed
by the backing service's identify operation, which this repository only
calls through the SDK (`identify_from_large_person_group`) — candidates
ordered by descending confidence, filtered by the caller's confidence
threshold, then truncated to the caller's maximum candidate count. -/
def serviceCandidates (cands : List (String × ℚ)) (maxC : Nat) (thr : ℚ) :
    List (String × ℚ) :=
  (((cands.insertionSort confGe).filter (fun c => decide (thr ≤ c.2))).take maxC)

/-- One entry of the list returned by `identify_sdk`: the `as_dict` image of
an SDK identify result, holding the input face id and its candidates
(person id and confidence). -/
structure IdentifyFaceResult where
  face_id : String
  candidates : List (String × ℚ)
deriving DecidableEq

/-- Modelled from the spec: the backing service's
`identify_from_large_person_group`, given the per-face raw candidate store
of the trained group. -/
def service_identify (store : String → List (String × ℚ)) (face_ids : List String)
    (maxC : Nat) (thr : ℚ) : List IdentifyFaceResult :=
  face_ids.map (fun fid => ⟨fid, serviceCandidates (store fid) maxC thr⟩)

/-- Embedding of `core_face.identify_sdk` (core_face.py lines 122-133): build
clients (propagating `ValueError`), call the service's identify operation
with the caller's `max_candidates` and `confidence_threshold`, and return
the per-face results as plain data. -/
def identify_sdk (env : Env) (store : String → List (String × ℚ)) (cfg : Config)
    (face_ids : List String) (large_person_group_id : String)
    (max_candidates : Nat) (confidence_threshold : ℚ) :
    Except PyErr (List IdentifyFaceResult) :=
  match create_clients env cfg with
  | Except.error e => Except.error e
  | Except.ok _ =>
    Except.ok (service_identify store face_ids max_candidates confidence_threshold)

/-! ## Concrete fixtures -/

/-- Environment with no relevant variables set. -/
def env0 : Env := ⟨Option.none, Option.none⟩

/-- Environment providing both `FACE_ENDPOINT` and `FACE_KEY`. -/
def env1 : Env := ⟨Option.some "e", Option.some "k"⟩

/-- The empty configuration dictionary. -/
def cfgEmpty : Config := ⟨Option.none, Option.none, false, Option.none⟩

/-- Endpoint and key-based auth mode, but no key. -/
def cfgNoKey : Config := ⟨Option.some "e", Option.some "Subscription Key", false, Option.none⟩

/-- Endpoint, key-based auth mode and a key. -/
def cfgFull : Config := ⟨Option.some "e", Option.some "Subscription Key", false, Option.some "k"⟩

/-- Endpoint and key, with an unrecognized `auth_method` string. -/
def cfgBogusAuth : Config := ⟨Option.some "e", Option.some "bogus", false, Option.some "k"⟩

/-- A service on which every call succeeds with an empty result. -/
def svcOk : ServiceOracle := ⟨fun _ => Except.ok [], Except.ok []⟩

/-- A service on which every call fails. -/
def svcFail : ServiceOracle :=
  ⟨fun _ => Except.error (PyErr.httpResponseError "boom"),
   Except.error (PyErr.httpResponseError "boom")⟩

/-- A service on which detect calls fail. -/
def svcErr : ServiceOracle :=
  ⟨fun _ => Except.error (PyErr.httpResponseError "400"), Except.ok []⟩

/-- A service that accepts attribute-free detects but rejects attribute
requests and group listing. -/
def svcAttrFail : ServiceOracle :=
  ⟨fun req =>
    if req.return_face_attributes = Option.none then Except.ok []
    else Except.error (PyErr.httpResponseError "403"),
   Except.error (PyErr.httpResponseError "500")⟩

/-! ## Claim C4 -/

/-- C4: with no environment-provided defaults, building clients from the
empty configuration fails with a configuration error (the code's
`ValueError`); endpoint with key-based auth but no key also fails; endpoint,
key-based auth and a key succeeds with the operational/administrative client
pair. -/
theorem C4_create_clients_validation :
    create_clients env0 cfgEmpty =
      Except.error (PyErr.valueError "Endpoint not provided in cfg.endpoint or FACE_ENDPOINT env") ∧
    create_clients env0 cfgNoKey =
      Except.error (PyErr.valueError "Subscription key missing (cfg.key or FACE_KEY env)") ∧
    create_clients env0 cfgFull =
      Except.ok (⟨"e", Credential.apiKey "k"⟩, ⟨"e", Credential.apiKey "k"⟩) :=
  ⟨rfl, rfl, rfl⟩

/-! ## Claim C6 -/

/-- C6: attribute translation drops names outside `ATTRIBUTE_MAP` and keeps
the recognized ones in input order (it is `filterMap` of the catalog
lookup); the documented example holds, and empty or `None` input produces no
attribute identifiers (the code leaves `attrs = None`). -/
theorem C6_attribute_translation :
    (∀ names : List String,
      (computeAttrs (Option.some names)).getD [] = names.filterMap lookupAttr) ∧
    computeAttrs (Option.some ["age", "bogus", "gender"]) =
      Option.some [FaceAttributeTypeRecognition04.AGE, FaceAttributeTypeRecognition04.GENDER] ∧
    computeAttrs (Option.some []) = Option.none ∧
    computeAttrs Option.none = Option.none := by
  refine ⟨fun names => ?_, rfl, rfl, rfl⟩
  cases names <;> rfl

/-! ## Claim C10 -/

/-- C10: with a resolvable endpoint, `create_clients` takes the
managed-identity path exactly when `auth_method` is `"Azure AD"` or
`use_managed_identity` is truthy; every other `auth_method` value (unknown
strings, or an absent key defaulting to `"Subscription Key"`) falls through
to the subscription-key path, whose only outcomes are a key-credential
client pair or the missing-key `ValueError` — never an invalid-auth-mode
rejection. -/
theorem C10_auth_method_dispatch (env : Env) (cfg : Config)
    (ht : truthyS (pyOr cfg.endpoint env.FACE_ENDPOINT) = true) :
    ((cfg.auth_method.getD "Subscription Key" = "Azure AD" ∨ cfg.use_managed_identity = true) →
      create_clients env cfg =
        Except.ok (⟨(pyOr cfg.endpoint env.FACE_ENDPOINT).getD "", Credential.managed⟩,
                   ⟨(pyOr cfg.endpoint env.FACE_ENDPOINT).getD "", Credential.managed⟩)) ∧
    (¬(cfg.auth_method.getD "Subscription Key" = "Azure AD" ∨ cfg.use_managed_identity = true) →
      create_clients env cfg =
        (if truthyS (pyOr cfg.key env.FACE_KEY) = true then
          Except.ok (⟨(pyOr cfg.endpoint env.FACE_ENDPOINT).getD "",
                      Credential.apiKey ((pyOr cfg.key env.FACE_KEY).getD "")⟩,
                     ⟨(pyOr cfg.endpoint env.FACE_ENDPOINT).getD "",
                      Credential.apiKey ((pyOr cfg.key env.FACE_KEY).getD "")⟩)
        else
          Except.error (PyErr.valueError "Subscription key missing (cfg.key or FACE_KEY env)"))) := by
  constructor
  · intro h
    have hb : (cfg.auth_method.getD "Subscription Key" == "Azure AD" ||
        cfg.use_managed_identity) = true := by
      simp only [Bool.or_eq_true, beq_iff_eq]
      exact h
    simp [create_clients, ht, hb]
  · intro h
    have h1 : cfg.auth_method.getD "Subscription Key" ≠ "Azure AD" :=
      fun hc => h (Or.inl hc)
    have h2 : cfg.use_managed_identity = false := by
      cases hum : cfg.use_managed_identity
      · rfl
      · exact absurd (Or.inr hum) h
    have hb : (cfg.auth_method.getD "Subscription Key" == "Azure AD" ||
        cfg.use_managed_identity) = false := by
      simp [h2, h1]
    cases hk : truthyS (pyOr cfg.key env.FACE_KEY) <;>
      simp [create_clients, ht, hb, hk]

/-- Witness for C10: an unrecognized auth mode string with a key present
builds key-credential clients. -/
theorem C10_auth_method_dispatch_witness :
    create_clients env0 cfgBogusAuth =
      Except.ok (⟨"e", Credential.apiKey "k"⟩, ⟨"e", Credential.apiKey "k"⟩) := by
  have h := (C10_auth_method_dispatch env0 cfgBogusAuth (by decide)).2 (by decide)
  rw [h]; rfl

/-! ## Claim C5 -/

/-- C5 counterexample: the client factory is not a pure function of the
configuration alone — with the same (empty) configuration, a process
environment carrying `FACE_ENDPOINT`/`FACE_KEY` yields a client pair while
an empty environment yields a `ValueError`, because `create_clients` falls
back to `os.environ` for both endpoint and key. -/
theorem C5_counterexample_env_dependence :
    create_clients env1 cfgEmpty =
      Except.ok (⟨"e", Credential.apiKey "k"⟩, ⟨"e", Credential.apiKey "k"⟩) ∧
    create_clients env0 cfgEmpty =
      Except.error (PyErr.valueError "Endpoint not provided in cfg.endpoint or FACE_ENDPOINT env") ∧
    create_clients env1 cfgEmpty ≠ create_clients env0 cfgEmpty :=
  ⟨rfl, rfl, fun h => Except.noConfusion h⟩

/-- C5 (amended): the factory performs no caching — every facade operation
rebuilds its clients from the configuration passed to that call (a factory
failure surfaces identically in the operation) — and it is a function of the
configuration alone whenever the configuration itself supplies a truthy
endpoint and either a managed-auth mode or a truthy key; otherwise it falls
back to the `FACE_ENDPOINT`/`FACE_KEY` environment variables. -/
theorem C5_factory_determinism (env env' : Env) (cfg : Config) :
    (truthyS cfg.endpoint = true →
      (cfg.auth_method.getD "Subscription Key" = "Azure AD" ∨
        cfg.use_managed_identity = true ∨ truthyS cfg.key = true) →
      create_clients env cfg = create_clients env' cfg) ∧
    (∀ svc img url lm dm rm ra e, create_clients env cfg = Except.error e →
      (detect_faces_sdk env svc cfg img url lm dm rm ra).result = Except.error e) := by
  constructor
  · intro h1 h2
    unfold create_clients
    simp only [pyOr, h1, if_true]
    cases hb : (cfg.auth_method.getD "Subscription Key" == "Azure AD" ||
        cfg.use_managed_identity)
    · have hk : truthyS cfg.key = true := by
        rcases h2 with h | h | h
        · rw [Bool.or_eq_false_iff] at hb
          exact absurd (beq_iff_eq.mpr h) (by simp [hb.1])
        · rw [Bool.or_eq_false_iff] at hb
          exact absurd h (by simp [hb.2])
        · exact h
      simp [hb, pyOr, hk]
    · simp [hb]
  · intro svc img url lm dm rm ra e h
    simp [detect_faces_sdk, h]

/-- Witness for C5 (amended): a full configuration builds the same clients
under two different environments, and a factory failure (empty configuration,
empty environment) surfaces unchanged from `detect_faces_sdk`. -/
theorem C5_factory_determinism_witness :
    create_clients env1 cfgFull = create_clients env0 cfgFull ∧
    (detect_faces_sdk env0 svcOk cfgEmpty (Option.some [0]) Option.none false
        FaceDetectionModel.DETECTION03 FaceRecognitionModel.RECOGNITION04 Option.none).result =
      Except.error (PyErr.valueError "Endpoint not provided in cfg.endpoint or FACE_ENDPOINT env") :=
  ⟨(C5_factory_determinism env1 env0 cfgFull).1 (by decide) (by decide),
   (C5_factory_determinism env0 env0 cfgEmpty).2 svcOk (Option.some [0]) Option.none false
     FaceDetectionModel.DETECTION03 FaceRecognitionModel.RECOGNITION04 Option.none
     (PyErr.valueError "Endpoint not provided in cfg.endpoint or FACE_ENDPOINT env") rfl⟩

/-! ## Claim C2 -/

/-- C2 counterexample: `detect_faces_sdk` enforces no mutual exclusivity.
With both an image payload and a URL it proceeds (the URL wins) and returns
the service result rather than failing with `InvalidArgument`; with neither
it also proceeds (an empty byte stream is sent) and again no
`InvalidArgument` is raised. -/
theorem C2_counterexample_no_exclusivity :
    (detect_faces_sdk env0 svcOk cfgFull (Option.some [1]) (Option.some "u") false
        FaceDetectionModel.DETECTION03 FaceRecognitionModel.RECOGNITION04 Option.none).result =
      Except.ok [] ∧
    (detect_faces_sdk env0 svcOk cfgFull (Option.some [1]) (Option.some "u") false
        FaceDetectionModel.DETECTION03 FaceRecognitionModel.RECOGNITION04 Option.none).result ≠
      Except.error PyErr.invalidArgument ∧
    (detect_faces_sdk env0 svcOk cfgFull Option.none Option.none false
        FaceDetectionModel.DETECTION03 FaceRecognitionModel.RECOGNITION04 Option.none).result =
      Except.ok [] ∧
    (detect_faces_sdk env0 svcOk cfgFull Option.none Option.none false
        FaceDetectionModel.DETECTION03 FaceRecognitionModel.RECOGNITION04 Option.none).result ≠
      Except.error PyErr.invalidArgument :=
  ⟨rfl, fun h => Except.noConfusion h, rfl, fun h => Except.noConfusion h⟩

/-- C2 (amended): `detect_faces_sdk` dispatches on URL truthiness alone —
when a URL is given the image payload is ignored (the outcome is identical
for any payload), and any failure is either the client factory's
configuration `ValueError` or an error returned by the service for the one
request issued; no local `InvalidArgument` exists. -/
theorem C2_detect_input_dispatch (env : Env) (svc : ServiceOracle) (cfg : Config)
    (img img' : Option (List Nat)) (url : Option String) (lm : Bool)
    (dm : FaceDetectionModel) (rm : FaceRecognitionModel) (ra : Option (List String)) :
    (truthyS url = true →
      detect_faces_sdk env svc cfg img url lm dm rm ra =
        detect_faces_sdk env svc cfg img' url lm dm rm ra) ∧
    (∀ e, (detect_faces_sdk env svc cfg img url lm dm rm ra).result = Except.error e →
      create_clients env cfg = Except.error e ∨
      (∃ req, req ∈ (detect_faces_sdk env svc cfg img url lm dm rm ra).requests ∧
        svc.detect req = Except.error e)) := by
  constructor
  · intro hu
    unfold detect_faces_sdk
    cases hc : create_clients env cfg
    · rfl
    · simp [hu]
  · intro e h
    unfold detect_faces_sdk at h
    cases hc : create_clients env cfg
    case error e' =>
      rw [hc] at h
      simp only at h
      obtain rfl : e' = e := by injection h
      exact Or.inl rfl
    case ok p =>
      rw [hc] at h
      simp only at h
      right
      cases hd : svc.detect (if truthyS url = true then
          ⟨DetectSource.fromUrl (url.getD ""), dm, rm, true, lm, computeAttrs ra⟩
        else
          ⟨DetectSource.fromStream (img.getD []), dm, rm, true, lm, computeAttrs ra⟩)
      case error e2 =>
        rw [hd] at h
        simp only at h
        obtain rfl : e2 = e := by injection h
        refine ⟨_, ?_, hd⟩
        simp [detect_faces_sdk, hc, hd]
      case ok faces =>
        rw [hd] at h
        simp only at h
        exact absurd h (fun hh => Except.noConfusion hh)

/-- Witness for C2 (amended): with a URL present the payload is ignored, and
a service failure is attributed to the issued request. -/
theorem C2_detect_input_dispatch_witness :
    detect_faces_sdk env0 svcErr cfgFull (Option.some [1]) (Option.some "u") false
        FaceDetectionModel.DETECTION03 FaceRecognitionModel.RECOGNITION04 Option.none =
      detect_faces_sdk env0 svcErr cfgFull Option.none (Option.some "u") false
        FaceDetectionModel.DETECTION03 FaceRecognitionModel.RECOGNITION04 Option.none ∧
    (create_clients env0 cfgFull = Except.error (PyErr.httpResponseError "400") ∨
      (∃ req, req ∈ (detect_faces_sdk env0 svcErr cfgFull (Option.some [1]) (Option.some "u")
          false FaceDetectionModel.DETECTION03 FaceRecognitionModel.RECOGNITION04
          Option.none).requests ∧
        svcErr.detect req = Except.error (PyErr.httpResponseError "400"))) :=
  ⟨(C2_detect_input_dispatch env0 svcErr cfgFull (Option.some [1]) Option.none
      (Option.some "u") false FaceDetectionModel.DETECTION03
      FaceRecognitionModel.RECOGNITION04 Option.none).1 rfl,
   (C2_detect_input_dispatch env0 svcErr cfgFull (Option.some [1]) Option.none
      (Option.some "u") false FaceDetectionModel.DETECTION03
      FaceRecognitionModel.RECOGNITION04 Option.none).2
     (PyErr.httpResponseError "400") rfl⟩

/-! ## Claim C3 -/

/-- An object with no structured export whose text is not JSON. -/
def objPlainStr : SDKObj := ⟨Option.none, "hello"⟩

/-- C3 counterexample: in its final fallback `_to_simple` returns the bare
string representation, not a `raw`-keyed mapping as the specification
claims. -/
theorem C3_counterexample_bare_string :
    _to_simple objPlainStr = PyVal.str "hello" ∧
    _to_simple objPlainStr ≠ PyVal.dict (PyFields.cons "raw" (PyVal.str "hello") PyFields.nil) :=
  ⟨rfl, fun h => PyVal.noConfusion h⟩

/-- C3 (amended): `_to_simple` tries, in order, the object's `as_dict`
export, then a JSON parse of its text, then falls back to the bare string
representation itself (not wrapped in a mapping); it is total, so it never
raises. -/
theorem C3_to_simple_fallback_chain (obj : SDKObj) :
    (∀ v, obj.as_dict = Option.some v → _to_simple obj = v) ∧
    (obj.as_dict = Option.none → ∀ v, json_loads obj.str_repr = Option.some v →
      _to_simple obj = v) ∧
    (obj.as_dict = Option.none → json_loads obj.str_repr = Option.none →
      _to_simple obj = PyVal.str obj.str_repr) := by
  refine ⟨?_, ?_, ?_⟩
  · intro v hv
    simp [_to_simple, hv]
  · intro h0 v hv
    simp [_to_simple, h0, hv]
  · intro h0 hv
    simp [_to_simple, h0, hv]

/-- An object with a structured export. -/
def objWithDict : SDKObj := ⟨Option.some (PyVal.int 5), "x"⟩

/-- An object without a structured export whose text parses as JSON. -/
def objJsonStr : SDKObj := ⟨Option.none, "42"⟩

/-- Witness for C3 (amended): each of the three branches at a concrete
object. -/
theorem C3_to_simple_fallback_chain_witness :
    _to_simple objWithDict = PyVal.int 5 ∧
    _to_simple objJsonStr = PyVal.int 42 ∧
    _to_simple objPlainStr = PyVal.str "hello" :=
  ⟨(C3_to_simple_fallback_chain objWithDict).1 (PyVal.int 5) rfl,
   (C3_to_simple_fallback_chain objJsonStr).2.1 rfl (PyVal.int 42) rfl,
   (C3_to_simple_fallback_chain objPlainStr).2.2 rfl rfl⟩

/-! ## Claim C8 -/

/-- The plain one-entry mapping whose Python text uses single quotes. -/
def dictA1 : PyVal := PyVal.dict (PyFields.cons "a" (PyVal.int 1) PyFields.nil)

/-- C8 counterexample: `normalize` does not return a plain mapping
unchanged — `str` of a non-empty dict uses single quotes, `json.loads`
rejects it, and the mapping comes back as its string representation. -/
theorem C8_counterexample_not_identity :
    normalizeVal dictA1 = PyVal.str (py_str dictA1) ∧
    normalizeVal dictA1 ≠ dictA1 :=
  ⟨rfl, fun h => PyVal.noConfusion h⟩

/-- C8 (amended): a plain value is returned unchanged by `normalize`
precisely when its string form parses back to itself (as for the empty
mapping), and on such values `normalize` is idempotent. -/
theorem C8_normalize_roundtrip_fixed (x : PyVal)
    (h : json_loads (py_str x) = Option.some x) :
    normalizeVal x = x ∧ normalizeVal (normalizeVal x) = normalizeVal x := by
  have h1 : normalizeVal x = x := by
    simp [normalizeVal, _to_simple, plain_obj, h]
  exact ⟨h1, by rw [h1]; exact h1⟩

/-- Witness for C8 (amended): the empty mapping round-trips and is a fixed
point of `normalize`. -/
theorem C8_normalize_roundtrip_fixed_witness :
    json_loads (py_str (PyVal.dict PyFields.nil)) = Option.some (PyVal.dict PyFields.nil) ∧
    normalizeVal (PyVal.dict PyFields.nil) = PyVal.dict PyFields.nil :=
  ⟨rfl, (C8_normalize_roundtrip_fixed (PyVal.dict PyFields.nil) rfl).1⟩

/-! ## Claim C9 -/

/-- C9: every result `identify_sdk` returns lists, per input face, candidates
in descending-confidence order, all at or above the caller's threshold, and
at most the caller's maximum count (the post-processing itself is the
service's, modelled from the specification; `identify_sdk` passes
`max_candidates` and `confidence_threshold` through). -/
theorem C9_identify_ordering (env : Env) (store : String → List (String × ℚ))
    (cfg : Config) (face_ids : List String) (gid : String) (maxC : Nat) (thr : ℚ)
    (rs : List IdentifyFaceResult)
    (h : identify_sdk env store cfg face_ids gid maxC thr = Except.ok rs) :
    ∀ r ∈ rs, r.candidates.Pairwise confGe ∧
      (∀ c ∈ r.candidates, thr ≤ c.2) ∧ r.candidates.length ≤ maxC := by
  have hrs : rs = service_identify store face_ids maxC thr := by
    unfold identify_sdk at h
    cases hc : create_clients env cfg
    case error e =>
      rw [hc] at h
      simp only at h
      exact absurd h (fun hh => Except.noConfusion hh)
    case ok p =>
      rw [hc] at h
      simp only at h
      injection h with h2
      exact h2.symm
  subst hrs
  intro r hr
  rw [service_identify, List.mem_map] at hr
  obtain ⟨fid, _, rfl⟩ := hr
  refine ⟨?_, ?_, ?_⟩
  · have hs : List.Pairwise confGe ((store fid).insertionSort confGe) :=
      List.sorted_insertionSort confGe (store fid)
    have hf : List.Pairwise confGe (((store fid).insertionSort confGe).filter
        (fun c => decide (thr ≤ c.2))) :=
      List.Pairwise.sublist (List.filter_sublist _) hs
    exact List.Pairwise.sublist (List.take_sublist _ _) hf
  · intro c hc2
    have hmem := List.take_subset _ _ hc2
    have hp := List.of_mem_filter hmem
    exact of_decide_eq_true hp
  · exact List.length_take_le _ _

/-- The raw candidate store of the specification's worked example. -/
def store0 : String → List (String × ℚ) :=
  fun _ => [("p1", 3/10), ("p2", 9/10), ("p3", 6/10)]

/-- Witness for C9: on candidates with confidences 0.3, 0.9, 0.6 under
`max_candidates = 2` and threshold 0.5, the result is 0.9 then 0.6, and the
stated ordering/threshold/truncation properties hold there. -/
theorem C9_identify_ordering_witness :
    identify_sdk env0 store0 cfgFull ["f1"] "g" 2 (1/2) =
      Except.ok [⟨"f1", [("p2", 9/10), ("p3", 6/10)]⟩] ∧
    ((⟨"f1", [("p2", 9/10), ("p3", 6/10)]⟩ : IdentifyFaceResult).candidates.Pairwise confGe ∧
      (∀ c ∈ (⟨"f1", [("p2", 9/10), ("p3", 6/10)]⟩ : IdentifyFaceResult).candidates,
        (1 : ℚ)/2 ≤ c.2) ∧
      (⟨"f1", [("p2", 9/10), ("p3", 6/10)]⟩ : IdentifyFaceResult).candidates.length ≤ 2) := by
  have h9 : identify_sdk env0 store0 cfgFull ["f1"] "g" 2 (1/2) =
      Except.ok [⟨"f1", [("p2", 9/10), ("p3", 6/10)]⟩] := by
    unfold identify_sdk service_identify serviceCandidates store0
    norm_num [create_clients, List.insertionSort, List.orderedInsert, confGe,
      List.filter, cfgFull, env0, pyOr, truthyS]
    rfl
  refine ⟨h9, ?_⟩
  exact C9_identify_ordering env0 store0 cfgFull ["f1"] "g" 2 (1/2) _ h9 _
    (List.mem_singleton_self _)

/-! ## Prober lemmas -/

/-- Requests issued by an attribute-free `detect_faces_sdk` call carry no
attribute list. -/
theorem detect_requests_attrs_none (env : Env) (svc : ServiceOracle) (cfg : Config)
    (img : Option (List Nat)) (url : Option String) (lm : Bool)
    (dm : FaceDetectionModel) (rm : FaceRecognitionModel) :
    ∀ req ∈ (detect_faces_sdk env svc cfg img url lm dm rm Option.none).requests,
      req.return_face_attributes = Option.none := by
  intro req hreq
  unfold detect_faces_sdk at hreq
  split at hreq
  · simp at hreq
  · simp only [List.mem_singleton] at hreq
    subst hreq
    split <;> rfl

/-- Every request issued by the basic check is attribute-free. -/
theorem probe_basic_requests (env : Env) (svc : ServiceOracle) (cfg : Config)
    (url : Option String) :
    ∀ req ∈ (probe_basic env svc cfg url).2.2, req.return_face_attributes = Option.none := by
  intro req hreq
  unfold probe_basic at hreq
  split at hreq
  · dsimp only at hreq
    split at hreq
    · exact detect_requests_attrs_none env svc cfg _ _ _ _ _ req hreq
    · rcases List.mem_append.mp hreq with hq | hq <;>
        exact detect_requests_attrs_none env svc cfg _ _ _ _ _ req hq
  · dsimp only at hreq
    split at hreq
    · exact detect_requests_attrs_none env svc cfg _ _ _ _ _ req hreq
    · exact detect_requests_attrs_none env svc cfg _ _ _ _ _ req hreq

/-- Case analysis of the basic check: either it succeeds with no error
logged, or it fails and logs exactly one detect-basic message. -/
theorem probe_basic_cases (env : Env) (svc : ServiceOracle) (cfg : Config)
    (url : Option String) :
    ((probe_basic env svc cfg url).1 = true ∧ (probe_basic env svc cfg url).2.1 = []) ∨
    ((probe_basic env svc cfg url).1 = false ∧
      ∃ m, (probe_basic env svc cfg url).2.1 = ["detect_basic error: " ++ m]) := by
  unfold probe_basic
  split
  · dsimp only
    split
    · exact Or.inl ⟨rfl, rfl⟩
    · exact Or.inr ⟨rfl, _, rfl⟩
  · dsimp only
    split
    · exact Or.inl ⟨rfl, rfl⟩
    · exact Or.inr ⟨rfl, _, rfl⟩

/-- Case analysis of the attributes check: skipped entirely when the basic
flag is false; with no test URL it does nothing and copies the basic flag;
when actually probed it either succeeds silently or fails logging exactly
one detect-attributes message. -/
theorem probe_attrs_cases (env : Env) (svc : ServiceOracle) (cfg : Config)
    (url : Option String) (basicOk : Bool) :
    (basicOk = false → probe_attrs env svc cfg url basicOk = (false, [], [])) ∧
    (truthyS url = false → probe_attrs env svc cfg url basicOk = (basicOk, [], [])) ∧
    (basicOk = true → truthyS url = true →
      ((probe_attrs env svc cfg url basicOk).1 = true ∧
        (probe_attrs env svc cfg url basicOk).2.1 = []) ∨
      ((probe_attrs env svc cfg url basicOk).1 = false ∧
        ∃ m, (probe_attrs env svc cfg url basicOk).2.1 =
          ["detect_attributes error: " ++ m])) := by
  refine ⟨?_, ?_, ?_⟩
  · intro h
    subst h
    rfl
  · intro h
    cases basicOk <;> simp [probe_attrs, h]
  · intro hb hu
    subst hb
    unfold probe_attrs
    simp only [hu, if_true]
    split
    · exact Or.inl ⟨rfl, rfl⟩
    · exact Or.inr ⟨rfl, _, rfl⟩

/-- Case analysis of the group-listing check. -/
theorem probe_lpg_cases (env : Env) (svc : ServiceOracle) (cfg : Config) :
    ((probe_lpg env svc cfg).1 = true ∧ (probe_lpg env svc cfg).2 = []) ∨
    ((probe_lpg env svc cfg).1 = false ∧
      ∃ m, (probe_lpg env svc cfg).2 = ["largePersonGroup error: " ++ m]) := by
  unfold probe_lpg
  split
  · exact Or.inl ⟨rfl, rfl⟩
  · exact Or.inr ⟨rfl, _, rfl⟩

/-- The probe report assembled from its three checks. -/
theorem probe_report_fields (env : Env) (svc : ServiceOracle) (cfg : Config)
    (url : Option String) :
    probe_endpoint env svc cfg url =
      ⟨(probe_basic env svc cfg url).1,
       (probe_attrs env svc cfg url (probe_basic env svc cfg url).1).1,
       (probe_lpg env svc cfg).1,
       (probe_basic env svc cfg url).2.1 ++
         (probe_attrs env svc cfg url (probe_basic env svc cfg url).1).2.1 ++
         (probe_lpg env svc cfg).2⟩ := rfl

/-- The requests of a probe run come from the basic and attributes checks. -/
theorem probe_run_requests (env : Env) (svc : ServiceOracle) (cfg : Config)
    (url : Option String) :
    (probe_endpoint_run env svc cfg url).requests =
      (probe_basic env svc cfg url).2.2 ++
        (probe_attrs env svc cfg url (probe_basic env svc cfg url).1).2.2 := rfl

/-! ## Claim C1 -/

/-- C1: for every configuration, environment, service behaviour and optional
test URL, `probe_endpoint` returns a complete report (totality is by
construction: every check catches its exceptions, so the embedding is a
total function into `CapabilityReport`, whose fields are the three booleans
and the ordered error log), and whenever an attempted check failed the error
log contains a message carrying the causing error text: always for
`detect_basic` and `largePersonGroup`, and for `detect_attributes` whenever
it was actually probed (basic succeeded and a test URL was given). -/
theorem C1_probe_totality (env : Env) (svc : ServiceOracle) (cfg : Config)
    (url : Option String) :
    ((probe_endpoint env svc cfg url).detect_basic = false →
      ∃ m, ("detect_basic error: " ++ m) ∈ (probe_endpoint env svc cfg url).errors) ∧
    ((probe_endpoint env svc cfg url).detect_basic = true → truthyS url = true →
      (probe_endpoint env svc cfg url).detect_attributes = false →
      ∃ m, ("detect_attributes error: " ++ m) ∈ (probe_endpoint env svc cfg url).errors) ∧
    ((probe_endpoint env svc cfg url).largePersonGroup = false →
      ∃ m, ("largePersonGroup error: " ++ m) ∈ (probe_endpoint env svc cfg url).errors) := by
  refine ⟨?_, ?_, ?_⟩
  · intro h
    replace h : (probe_basic env svc cfg url).1 = false := h
    rcases probe_basic_cases env svc cfg url with ⟨h1, _⟩ | ⟨_, m, hm⟩
    · rw [h1] at h
      cases h
    · refine ⟨m, ?_⟩
      show ("detect_basic error: " ++ m) ∈
        (probe_basic env svc cfg url).2.1 ++
          (probe_attrs env svc cfg url (probe_basic env svc cfg url).1).2.1 ++
          (probe_lpg env svc cfg).2
      rw [hm]
      simp
  · intro h hu h2
    replace h : (probe_basic env svc cfg url).1 = true := h
    replace h2 : (probe_attrs env svc cfg url (probe_basic env svc cfg url).1).1 = false := h2
    rcases (probe_attrs_cases env svc cfg url ((probe_basic env svc cfg url).1)).2.2 h hu
        with ⟨h3, _⟩ | ⟨_, m, hm⟩
    · rw [h3] at h2
      cases h2
    · refine ⟨m, ?_⟩
      show ("detect_attributes error: " ++ m) ∈
        (probe_basic env svc cfg url).2.1 ++
          (probe_attrs env svc cfg url (probe_basic env svc cfg url).1).2.1 ++
          (probe_lpg env svc cfg).2
      rw [hm]
      simp
  · intro h
    replace h : (probe_lpg env svc cfg).1 = false := h
    rcases probe_lpg_cases env svc cfg with ⟨h1, _⟩ | ⟨_, m, hm⟩
    · rw [h1] at h
      cases h
    · refine ⟨m, ?_⟩
      show ("largePersonGroup error: " ++ m) ∈
        (probe_basic env svc cfg url).2.1 ++
          (probe_attrs env svc cfg url (probe_basic env svc cfg url).1).2.1 ++
          (probe_lpg env svc cfg).2
      rw [hm]
      simp

/-- Witness for C1: a failing service with no test URL logs a detect-basic
and a group-listing error; a service accepting plain detects but rejecting
attribute requests logs a detect-attributes error. -/
theorem C1_probe_totality_witness :
    (∃ m, ("detect_basic error: " ++ m) ∈
      (probe_endpoint env0 svcFail cfgFull Option.none).errors) ∧
    (∃ m, ("detect_attributes error: " ++ m) ∈
      (probe_endpoint env0 svcAttrFail cfgFull (Option.some "u")).errors) ∧
    (∃ m, ("largePersonGroup error: " ++ m) ∈
      (probe_endpoint env0 svcFail cfgFull Option.none).errors) :=
  ⟨(C1_probe_totality env0 svcFail cfgFull Option.none).1 rfl,
   (C1_probe_totality env0 svcAttrFail cfgFull (Option.some "u")).2.1 rfl rfl rfl,
   (C1_probe_totality env0 svcFail cfgFull Option.none).2.2 rfl⟩

/-! ## Claim C7 -/

/-- C7 counterexample: the report has no distinct "not run" value.  In a run
with no test URL whose basic check fails, the attributes check is never
probed (no request carries an attribute list) yet `detect_attributes` is
reported as `false` — exactly the value reported by a run that did probe
attributes (basic succeeded, attribute request issued) and failed. -/
theorem C7_counterexample_flat_boolean :
    (probe_endpoint env0 svcFail cfgFull Option.none).detect_attributes = false ∧
    (∀ req ∈ (probe_endpoint_run env0 svcFail cfgFull Option.none).requests,
      req.return_face_attributes = Option.none) ∧
    (probe_endpoint env0 svcAttrFail cfgFull (Option.some "u")).detect_basic = true ∧
    (probe_endpoint env0 svcAttrFail cfgFull (Option.some "u")).detect_attributes = false ∧
    (∃ req, req ∈ (probe_endpoint_run env0 svcAttrFail cfgFull (Option.some "u")).requests ∧
      req.return_face_attributes ≠ Option.none) := by
  refine ⟨rfl, by decide, rfl, rfl, ?_⟩
  exact ⟨⟨DetectSource.fromUrl "u", FaceDetectionModel.DETECTION03,
    FaceRecognitionModel.RECOGNITION04, true, false,
    Option.some [FaceAttributeTypeRecognition04.AGE, FaceAttributeTypeRecognition04.GENDER]⟩,
    by decide, by decide⟩

/-- C7 (amended): the attributes check is probed only when the basic check
succeeded (a failed basic check means no issued request carries an attribute
list), and when no test URL is supplied the check is never probed and the
flat boolean merely copies `detect_basic` — `true` (indistinguishable from
"probed and succeeded") when basic succeeded, `false` (indistinguishable from
"probed and failed") when it did not; there is no distinct not-run value. -/
theorem C7_attrs_check_gating (env : Env) (svc : ServiceOracle) (cfg : Config)
    (url : Option String) :
    ((probe_endpoint env svc cfg url).detect_basic = false →
      ∀ req ∈ (probe_endpoint_run env svc cfg url).requests,
        req.return_face_attributes = Option.none) ∧
    (truthyS url = false →
      (∀ req ∈ (probe_endpoint_run env svc cfg url).requests,
        req.return_face_attributes = Option.none) ∧
      (probe_endpoint env svc cfg url).detect_attributes =
        (probe_endpoint env svc cfg url).detect_basic) := by
  constructor
  · intro h req hreq
    replace h : (probe_basic env svc cfg url).1 = false := h
    rw [probe_run_requests, h,
      (probe_attrs_cases env svc cfg url false).1 rfl] at hreq
    simp only [List.append_nil] at hreq
    exact probe_basic_requests env svc cfg url req hreq
  · intro hu
    constructor
    · intro req hreq
      rw [probe_run_requests,
        (probe_attrs_cases env svc cfg url ((probe_basic env svc cfg url).1)).2.1 hu] at hreq
      simp only [List.append_nil] at hreq
      exact probe_basic_requests env svc cfg url req hreq
    · show (probe_attrs env svc cfg url (probe_basic env svc cfg url).1).1 =
        (probe_basic env svc cfg url).1
      rw [(probe_attrs_cases env svc cfg url ((probe_basic env svc cfg url).1)).2.1 hu]

/-- Witness for C7 (amended): with a failing service and a test URL the basic
check fails and no issued request carries attributes; with no test URL the
attributes flag equals the basic flag. -/
theorem C7_attrs_check_gating_witness :
    (∀ req ∈ (probe_endpoint_run env0 svcFail cfgFull (Option.some "u")).requests,
      req.return_face_attributes = Option.none) ∧
    (probe_endpoint env0 svcFail cfgFull Option.none).detect_attributes =
      (probe_endpoint env0 svcFail cfgFull Option.none).detect_basic :=
  ⟨(C7_attrs_check_gating env0 svcFail cfgFull (Option.some "u")).1 rfl,
   ((C7_attrs_check_gating env0 svcFail cfgFull Option.none).2 rfl).2⟩
